import Mathlib

/-!
Verification development for the ILGuard core: a shallow embedding of the
price-history tracker, IL calculator, IL predictor and risk-scoring engine,
together with theorems settling the frozen claims about them.

Number model: the TypeScript sources compute with IEEE floats; we idealise
them as elements of a linear ordered field.  Definitions that only add,
multiply, divide, compare and take `min`/`max`/`abs` are stated generically
(instantiated at `ℚ` for executable witnesses); definitions that need a
square root (`Math.sqrt`) live at `ℝ`.
-/

namespace ILGuard

/-- One entry of a per-symbol price history: `{ price, timestamp }` as pushed
by `PriceService.addToHistory` (timestamps are `Date.now()` milliseconds). -/
structure Sample (α : Type) where
  price : α
  timestamp : Int
  deriving DecidableEq

section PriceService

variable {α : Type} [LinearOrderedField α]

/-- Capacity of each per-symbol buffer (`MAX_HISTORY_POINTS` in
`priceService`). -/
def MAX_HISTORY_POINTS : Nat := 100

/-- Embedding of `PriceService.addToHistory`: push the sample, then if the
length exceeds `MAX_HISTORY_POINTS` drop the oldest entry (`shift`). -/
def addToHistory (history : List (Sample α)) (s : Sample α) : List (Sample α) :=
  let h := history ++ [s]
  if h.length > MAX_HISTORY_POINTS then h.tail else h

/-- Embedding of `PriceService.findPriceAtTime`: scan the whole history for
the sample whose timestamp is closest to `targetTime` (first wins on ties,
strict improvement required) and return its price only when that closest
sample is within 30 seconds of the target. -/
def findPriceAtTime (history : List (Sample α)) (targetTime : Int) : Option α :=
  match history with
  | [] => none
  | h :: t =>
      let closest := (h :: t).foldl
        (fun c p => if |p.timestamp - targetTime| < |c.timestamp - targetTime| then p else c) h
      if |closest.timestamp - targetTime| < 30000 then some closest.price else none

/-- Velocity record returned by `PriceService.getPriceVelocity`. -/
structure PriceVelocity (α : Type) where
  symbol : String
  currentPrice : α
  priceChange1min : α
  priceChange5min : α
  priceChange15min : α
  velocityPerHour : α
  deriving DecidableEq

/-- Embedding of `PriceService.getPriceVelocity`.  Absent when fewer than two
samples exist; otherwise blends the 1/5/15-minute lookback changes into an
hourly-equivalent rate with weights 0.5·4 / 0.3·12 / 0.2·60.  The JavaScript
falsy guards (`?.price || 0` and `priceXminAgo ? _ : 0`) are kept: a missing
or zero lookback price contributes a zero percentage change. -/
def getPriceVelocity (symbol : String) (now : Int) (history : List (Sample α)) :
    Option (PriceVelocity α) :=
  if history.length < 2 then none
  else
    let currentPrice := match history.getLast? with
      | some s => s.price
      | none => 0
    let price1minAgo := findPriceAtTime history (now - 60 * 1000)
    let price5minAgo := findPriceAtTime history (now - 5 * 60 * 1000)
    let price15minAgo := findPriceAtTime history (now - 15 * 60 * 1000)
    let priceChange1min := match price1minAgo with
      | some p => if p = 0 then 0 else (currentPrice - p) / p * 100
      | none => 0
    let priceChange5min := match price5minAgo with
      | some p => if p = 0 then 0 else (currentPrice - p) / p * 100
      | none => 0
    let priceChange15min := match price15minAgo with
      | some p => if p = 0 then 0 else (currentPrice - p) / p * 100
      | none => 0
    let velocityPerHour :=
      priceChange15min * 0.5 * 4 + priceChange5min * 0.3 * 12 + priceChange1min * 0.2 * 60
    some { symbol := symbol, currentPrice := currentPrice,
           priceChange1min := priceChange1min, priceChange5min := priceChange5min,
           priceChange15min := priceChange15min, velocityPerHour := velocityPerHour }

end PriceService

/-- Embedding of `PriceService.getVolatility`: population standard deviation
of the consecutive percentage changes among samples whose timestamp falls
within the trailing window, with the JavaScript falsy guard skipping pairs
containing a zero price; returns 0 when fewer than three samples qualify. -/
noncomputable def getVolatility (now : Int) (windowMinutes : ℝ)
    (history : List (Sample ℝ)) : ℝ :=
  if history.length < 3 then 0
  else
    let windowMs := windowMinutes * 60 * 1000
    let recentPrices := (history.filter
      (fun p => ((now - p.timestamp : Int) : ℝ) < windowMs)).map (·.price)
    if recentPrices.length < 3 then 0
    else
      let changes := (recentPrices.zip recentPrices.tail).filterMap
        (fun pc => if pc.1 ≠ 0 ∧ pc.2 ≠ 0 then some ((pc.2 - pc.1) / pc.1 * 100) else none)
      let mean := changes.sum / (changes.length : ℝ)
      let variance := (changes.map (fun v => (v - mean) ^ 2)).sum / (changes.length : ℝ)
      Real.sqrt variance

/-- JavaScript `Math.round`: the nearest integer, halves rounding toward
positive infinity, i.e. `⌊x + 1/2⌋`. -/
def jsRound {α : Type} [LinearOrderedField α] [FloorRing α] (x : α) : ℤ :=
  ⌊x + 1 / 2⌋

namespace ILCalculator

/-- Result record of `calculateImpermanentLoss` (`ILCalculationResult`). -/
structure ILCalculationResult where
  ilPercentage : ℝ
  ilValue : ℝ
  currentValue : ℝ
  holdValue : ℝ

/-- Embedding of `calculateImpermanentLoss` from `utils/ilCalculator.ts`:
`r = currentPrice/initialPrice`, `multiplier = 2·√r/(1+r)`,
`ilPercentage = (multiplier − 1)·100`, `currentValue = initialValue·multiplier`,
`ilValue = currentValue − initialValue`. -/
noncomputable def calculateImpermanentLoss
    (initialPrice currentPrice initialValue : ℝ) : ILCalculationResult :=
  let priceRatio := currentPrice / initialPrice
  let ilMultiplier := 2 * Real.sqrt priceRatio / (1 + priceRatio)
  let ilPercentage := (ilMultiplier - 1) * 100
  let currentValue := initialValue * ilMultiplier
  let holdValue := initialValue
  let ilValue := currentValue - holdValue
  { ilPercentage := ilPercentage, ilValue := ilValue,
    currentValue := currentValue, holdValue := holdValue }

/-- Embedding of `predictIL` from `utils/ilCalculator.ts` (an alias of
`calculateImpermanentLoss` applied to the predicted price). -/
noncomputable def predictIL (currentPrice predictedPrice positionValue : ℝ) :
    ILCalculationResult :=
  calculateImpermanentLoss currentPrice predictedPrice positionValue

/-- Embedding of `calculatePriceChange` from `utils/ilCalculator.ts`. -/
def calculatePriceChange {α : Type} [LinearOrderedField α] (oldPrice newPrice : α) : α :=
  (newPrice - oldPrice) / oldPrice * 100

/-- Embedding of `isRebalanceWorthwhile` from `utils/ilCalculator.ts`:
`|predictedILValue| > estimatedGasCostUSD · minSavingsMultiplier`. -/
def isRebalanceWorthwhile {α : Type} [LinearOrderedField α]
    (predictedILValue estimatedGasCostUSD minSavingsMultiplier : α) : Bool :=
  let potentialSavings := |predictedILValue|
  decide (potentialSavings > estimatedGasCostUSD * minSavingsMultiplier)

end ILCalculator

/-- Four-valued risk bucket shared by the predictor (`riskLevel`) and the
risk engine (`overallRisk`). -/
inductive RiskLevel where
  | low
  | medium
  | high
  | critical
  deriving DecidableEq

namespace ILPredictor

/-- Prediction record returned by `ILPredictor.predictIL` (`ILPrediction`). -/
structure ILPrediction (α : Type) where
  symbol : String
  currentPrice : α
  predictedPrice : α
  predictionTimeframe : α
  predictedILPercentage : α
  predictedILValue : α
  confidence : α
  riskLevel : RiskLevel
  recommendation : String

/-- Caller-supplied configuration of `ILPredictor.predictIL`
(`PredictionConfig`). -/
structure PredictionConfig where
  timeframeMinutes : ℝ
  positionValueUSD : ℝ
  entryPrice : ℝ

section Generic

variable {α : Type} [LinearOrderedField α] [FloorRing α]

/-- Weight of the pure-velocity forecast in the blended prediction
(`VELOCITY_WEIGHT`). -/
def VELOCITY_WEIGHT : ℚ := 0.6

/-- Weight of the volatility-adjusted forecast in the blended prediction
(`VOLATILITY_WEIGHT`). -/
def VOLATILITY_WEIGHT : ℚ := 0.4

/-- The volatility adjustment inside `ILPredictor.predictFuturePrice`:
`currentPrice · (volatility/100) · (expectedChange > 0 ? 1 : -1)`.  Note that
the ternary yields `-1` when `expectedChange` is exactly zero. -/
def volatilityAdjustment (currentPrice volatility expectedChange : α) : α :=
  currentPrice * (volatility / 100) * (if expectedChange > 0 then 1 else -1)

/-- Embedding of `ILPredictor.predictFuturePrice`: linear extrapolation of
the blended hourly velocity over the timeframe, a volatility adjustment in
the direction of the move, a fixed 0.6/0.4 blend floored at zero, and a
confidence score `max(0, 100 − volatility·5) · min(historySize/50, 1)`
rounded to the nearest integer.  Returns `(predictedPrice, confidence)`. -/
def predictFuturePrice (currentPrice : α) (velocity : PriceVelocity α)
    (volatility : α) (timeframeMinutes : α) (historySize : Nat) : α × α :=
  let hourlyChange := velocity.velocityPerHour
  let expectedChange := hourlyChange / 60 * timeframeMinutes
  let velocityPrediction := currentPrice * (1 + expectedChange / 100)
  let volAdj := volatilityAdjustment currentPrice volatility expectedChange
  let predictedPrice :=
    velocityPrediction * (VELOCITY_WEIGHT : α) +
      (velocityPrediction + volAdj) * (VOLATILITY_WEIGHT : α)
  let historyFactor := min ((historySize : α) / 50) 1
  let volatilityConfidence := max 0 (100 - volatility * 5)
  let confidence := volatilityConfidence * historyFactor
  (max predictedPrice 0, (jsRound confidence : ℤ))

end Generic

/-- Embedding of `ILPredictor.calculateRiskLevel`: bucket `|ilPercentage|`
against the thresholds 2 / 4 / 6. -/
noncomputable def calculateRiskLevel (ilPercentage : ℝ) : RiskLevel :=
  let absIL := |ilPercentage|
  if absIL < 2 then .low
  else if absIL < 4 then .medium
  else if absIL < 6 then .high
  else .critical

/-- Embedding of `ILPredictor.generateRecommendation`: a text templated from
the risk level and the direction of the hourly velocity.  `fmt x n` stands
for JavaScript `x.toFixed(n)`. -/
noncomputable def generateRecommendation (fmt : ℝ → Nat → String)
    (riskLevel : RiskLevel) (ilPercentage : ℝ) (velocity : PriceVelocity ℝ) : String :=
  let absIL := |ilPercentage|
  let direction := if velocity.velocityPerHour > 0 then "upward" else "downward"
  match riskLevel with
  | .low => "Low risk (" ++ fmt absIL 2 ++ "% IL). Position is safe. Continue monitoring."
  | .medium => "Medium risk (" ++ fmt absIL 2 ++ "% IL). Consider widening range if "
      ++ direction ++ " trend continues."
  | .high => "High risk (" ++ fmt absIL 2
      ++ "% IL)! Recommend widening range now to reduce IL exposure."
  | .critical => "CRITICAL RISK (" ++ fmt absIL 2 ++ "% IL)! Strong " ++ direction
      ++ " movement detected. Consider exiting position or immediately widening range."

/-- Embedding of `ILPredictor.predictIL`.  The price fetch is the one
external suspension point: its outcome is passed in as `fetch` (the fetched
price, or `none` on upstream failure).  A successful fetch stores the sample
into the history (as `PriceService.getPrice` does) before the velocity is
read; an absent fetch or an absent velocity yields `none`. -/
noncomputable def predictIL (fmt : ℝ → Nat → String) (symbol : String)
    (fetch : Option ℝ) (history : List (Sample ℝ)) (now : Int)
    (config : PredictionConfig) : Option (ILPrediction ℝ) :=
  match fetch with
  | none => none
  | some price =>
      let history' := addToHistory history { price := price, timestamp := now }
      match getPriceVelocity symbol now history' with
      | none => none
      | some velocity =>
          let volatility := getVolatility now config.timeframeMinutes history'
          let res := predictFuturePrice price velocity volatility
            config.timeframeMinutes history'.length
          let ilResult := ILCalculator.predictIL config.entryPrice res.1
            config.positionValueUSD
          let riskLevel := calculateRiskLevel |ilResult.ilPercentage|
          some { symbol := symbol
                 currentPrice := price
                 predictedPrice := res.1
                 predictionTimeframe := config.timeframeMinutes
                 predictedILPercentage := ilResult.ilPercentage
                 predictedILValue := ilResult.ilValue
                 confidence := res.2
                 riskLevel := riskLevel
                 recommendation :=
                   generateRecommendation fmt riskLevel ilResult.ilPercentage velocity }

end ILPredictor

namespace RiskScoring

/-- Recommended action field of a `RiskScore` recommendation. -/
inductive RecAction where
  | monitor
  | widen_range
  | rebalance
  | exit
  deriving DecidableEq

/-- Urgency field of a `RiskScore` recommendation. -/
inductive Urgency where
  | low
  | medium
  | high
  | critical
  deriving DecidableEq

/-- The fields of `LPPosition` that `RiskScoringEngine` reads. -/
structure LPPositionR where
  positionMint : String
  totalValueUSD : ℚ
  currentPrice : ℚ
  currentIL : ℚ
  netPnL : ℚ
  inRange : Bool
  deriving DecidableEq

/-- The fields of an `ILPrediction` that `RiskScoringEngine` reads. -/
structure ILPredictionR where
  predictedILPercentage : ℚ
  predictedILValue : ℚ
  confidence : ℚ
  deriving DecidableEq

/-- `RebalanceDecision` returned by `RiskScoringEngine.shouldRebalance`. -/
structure RebalanceDecision where
  shouldRebalance : Bool
  reason : String
  expectedILPrevented : ℚ
  estimatedGasCost : ℚ
  netSavings : ℚ
  confidence : ℚ
  deriving DecidableEq

/-- Recommendation block of a `RiskScore`. -/
structure Recommendation where
  action : RecAction
  urgency : Urgency
  reasoning : String
  expectedSavings : ℚ
  estimatedGasCost : ℚ
  worthRebalancing : Bool
  deriving DecidableEq

/-- Components block of a `RiskScore`. -/
structure RiskComponents where
  currentIL : ℚ
  predictedIL : ℚ
  outOfRange : Bool
  volatility : ℚ
  deriving DecidableEq

/-- The pure content of a `RiskScore` (the `positionId`, `overallRisk`,
`riskScore`, `components` and `recommendation` fields; the echoed
`position`/`prediction`/`timestamp` fields are omitted). -/
structure RiskScoreR where
  positionId : String
  overallRisk : RiskLevel
  riskScore : ℤ
  components : RiskComponents
  recommendation : Recommendation
  deriving DecidableEq

/-- Number formatting used by the reasoning templates: `toFixed x n` stands
for JavaScript `x.toFixed(n)` and `plain x` for default template-literal
stringification. -/
structure Formatter where
  toFixed : ℚ → Nat → String
  plain : ℚ → String

/-- Gas-cost assumption of the engine (`GAS_COST_USD`). -/
def GAS_COST_USD : ℚ := 0.01

/-- Minimum savings multiplier of the engine (`MIN_SAVINGS_MULTIPLIER`). -/
def MIN_SAVINGS_MULTIPLIER : ℚ := 10

/-- Embedding of `RiskScoringEngine.normalizeIL`:
`min((ilPercentage/10)·100, 100)`. -/
def normalizeIL (ilPercentage : ℚ) : ℚ :=
  min (ilPercentage / 10 * 100) 100

/-- Embedding of `RiskScoringEngine.normalizeVolatility`:
`min((volatility/5)·100, 100)`. -/
def normalizeVolatility (volatility : ℚ) : ℚ :=
  min (volatility / 5 * 100) 100

/-- Embedding of `RiskScoringEngine.getRiskLevel`: `≥75` critical, `≥50`
high, `≥25` medium, else low. -/
def getRiskLevel (score : ℚ) : RiskLevel :=
  if score ≥ 75 then .critical
  else if score ≥ 50 then .high
  else if score ≥ 25 then .medium
  else .low

/-- Embedding of the pure part of `RiskScoringEngine.shouldRebalance`: the
IL prediction obtained from the predictor is passed in as `prediction`. -/
def shouldRebalanceF (fmt : Formatter) (prediction : Option ILPredictionR) :
    RebalanceDecision :=
  match prediction with
  | none =>
      { shouldRebalance := false
        reason := "Unable to predict IL - insufficient data"
        expectedILPrevented := 0
        estimatedGasCost := GAS_COST_USD
        netSavings := -GAS_COST_USD
        confidence := 0 }
  | some p =>
      let expectedILValue := |p.predictedILValue|
      let ilPrevented := expectedILValue * 0.7
      let netSavings := ilPrevented - GAS_COST_USD
      let minSavings := GAS_COST_USD * MIN_SAVINGS_MULTIPLIER
      let shouldRebalance := decide (ilPrevented > minSavings)
      let reason :=
        if ilPrevented > minSavings then
          "Rebalancing will prevent $" ++ fmt.toFixed ilPrevented 2 ++ " IL at $"
            ++ fmt.plain GAS_COST_USD ++ " cost ("
            ++ fmt.toFixed (ilPrevented / GAS_COST_USD) 0 ++ "x return)"
        else if expectedILValue < 1 then
          "Predicted IL is negligible - not worth rebalancing"
        else
          "Predicted IL ($" ++ fmt.toFixed expectedILValue 2
            ++ ") too small compared to gas cost ($" ++ fmt.plain GAS_COST_USD ++ ")"
      { shouldRebalance := shouldRebalance
        reason := reason
        expectedILPrevented := ilPrevented
        estimatedGasCost := GAS_COST_USD
        netSavings := netSavings
        confidence := p.confidence }

/-- Embedding of `RiskScoringEngine.generateRecommendation`: the decision
tree evaluated in source order, first match wins.  The `riskScore` argument
is received (as in the source) but not consulted by any branch.  The source
first awaits `this.shouldRebalance(position)`, which performs its own,
independent `predictIL` call; since each successful price fetch appends a
sample to the history, that second call's outcome can differ from the
`prediction` argument (it may even succeed where the first call returned
null).  Its externally-determined outcome is therefore passed in separately
as `rdPrediction`. -/
def generateRecommendation (fmt : Formatter) (position : LPPositionR)
    (prediction rdPrediction : Option ILPredictionR) (riskScore volatility : ℚ) :
    Recommendation :=
  let rd := shouldRebalanceF fmt rdPrediction
  let base (action : RecAction) (urgency : Urgency) (reasoning : String) :
      Recommendation :=
    { action := action, urgency := urgency, reasoning := reasoning
      expectedSavings := rd.expectedILPrevented
      estimatedGasCost := rd.estimatedGasCost
      worthRebalancing := rd.shouldRebalance }
  if position.inRange = false then
    base .rebalance .critical
      ("Position OUT OF RANGE. Not earning fees. " ++ rd.reason)
  else
    match prediction with
    | some p =>
        if |p.predictedILPercentage| > 6 then
          base (if rd.shouldRebalance then .rebalance else .exit) .critical
            ("Severe IL predicted (" ++ fmt.toFixed |p.predictedILPercentage| 2
              ++ "%). " ++ rd.reason)
        else if |p.predictedILPercentage| > 4 ∧ volatility > 3 then
          base (if rd.shouldRebalance then .widen_range else .monitor) .high
            ("High IL risk (" ++ fmt.toFixed |p.predictedILPercentage| 2
              ++ "%) + high volatility. " ++ rd.reason)
        else if |p.predictedILPercentage| > 2 then
          base .monitor .medium
            ("Moderate IL predicted (" ++ fmt.toFixed |p.predictedILPercentage| 2
              ++ "%). Monitor closely.")
        else
          base .monitor .low
            ("Position healthy. IL: " ++ fmt.toFixed position.currentIL 2
              ++ "%, Net P&L: $" ++ fmt.toFixed position.netPnL 2)
    | none =>
        base .monitor .low
          ("Position healthy. IL: " ++ fmt.toFixed position.currentIL 2
            ++ "%, Net P&L: $" ++ fmt.toFixed position.netPnL 2)

/-- The weighted risk score computed inside
`RiskScoringEngine.calculateRiskScore` (the local `riskScore` before
rounding): component scores normalised to 0–100, weighted
0.3 / 0.4 / 0.2 / 0.1.  An absent prediction contributes a zero
predicted-IL score. -/
def riskScoreRaw (position : LPPositionR) (prediction : Option ILPredictionR)
    (volatility : ℚ) : ℚ :=
  let currentILScore := normalizeIL |position.currentIL|
  let predictedILScore := match prediction with
    | some p => normalizeIL |p.predictedILPercentage|
    | none => 0
  let outOfRangeScore : ℚ := if position.inRange then 0 else 100
  let volatilityScore := normalizeVolatility volatility
  currentILScore * 0.3 + predictedILScore * 0.4 + outOfRangeScore * 0.2 +
    volatilityScore * 0.1

/-- Embedding of the pure part of `RiskScoringEngine.calculateRiskScore`:
the prediction (possibly absent) and the volatility obtained from the
collaborators are passed in, as is `rdPrediction`, the outcome of the
independent `predictIL` call made inside `shouldRebalance` when
`generateRecommendation` awaits it (see `generateRecommendation`).  The
`riskScore` field is the weighted score rounded with `Math.round`;
`overallRisk` is bucketed from the unrounded score. -/
def calculateRiskScore (fmt : Formatter) (position : LPPositionR)
    (prediction rdPrediction : Option ILPredictionR) (volatility : ℚ) : RiskScoreR :=
  let riskScore := riskScoreRaw position prediction volatility
  { positionId := position.positionMint
    overallRisk := getRiskLevel riskScore
    riskScore := jsRound riskScore
    components :=
      { currentIL := position.currentIL
        predictedIL := (prediction.map (·.predictedILPercentage)).getD 0
        outOfRange := !position.inRange
        volatility := volatility }
    recommendation :=
      generateRecommendation fmt position prediction rdPrediction riskScore volatility }

end RiskScoring

/-! Specification-side definitions, written from the spec's words rather
than from the source, used to compare the embedded code against the claims. -/

section SpecSide

variable {α : Type} [LinearOrderedField α]

/-- The sample whose timestamp is closest to `targetTime` (first on ties),
written independently of the source via `List.argmin`. -/
def closestSample (history : List (Sample α)) (targetTime : Int) :
    Option (Sample α) :=
  history.argmin (fun s => |s.timestamp - targetTime|)

/-- The percentage change used by the spec's description of velocity: the
change from the sample closest to `now − lookbackMs` to `currentPrice`,
accepted only when that closest sample is within 30 seconds of the target
instant, and contributing exactly 0 otherwise. -/
def changeAtLookback (history : List (Sample α)) (now lookbackMs : Int)
    (currentPrice : α) : α :=
  match closestSample history (now - lookbackMs) with
  | none => 0
  | some s =>
      if |s.timestamp - (now - lookbackMs)| < 30000 then
        (currentPrice - s.price) / s.price * 100
      else 0

/-- Modelled from the spec: the volatility adjustment as the claim words it,
`currentPrice · (volatility/100) · sign(expectedChangePct)` with sign `+1`
whenever `expectedChangePct ≥ 0` and `−1` otherwise. -/
def volatilityAdjustmentSpec (currentPrice volatility expectedChange : α) : α :=
  currentPrice * (volatility / 100) * (if 0 ≤ expectedChange then 1 else -1)

end SpecSide

/-! Concrete fixtures used by witnesses and counterexamples. -/

/-- A trivial formatter for witness evaluation (formatting does not affect
any decided field). -/
def fmt0 : RiskScoring.Formatter := ⟨fun _ _ => "", fun _ => ""⟩

/-- A formatter that renders every number as `0.00`, matching `toFixed(2)`
on the zero inputs of the counterexample position. -/
def fmtZ : RiskScoring.Formatter := ⟨fun _ _ => "0.00", fun _ => "0.01"⟩

/-- An in-range position with zero current IL and zero net P&L. -/
def posInRange : RiskScoring.LPPositionR :=
  { positionMint := "mock-position-1", totalValueUSD := 10000, currentPrice := 84,
    currentIL := 0, netPnL := 0, inRange := true }

/-- An out-of-range position (entry $100, range $90–$110, price drifted to
$84). -/
def posOutOfRange : RiskScoring.LPPositionR :=
  { positionMint := "mock-position-2", totalValueUSD := 10000, currentPrice := 84,
    currentIL := 0, netPnL := 0, inRange := false }

/-- A two-sample price history: $100 at t=0 and $101 at t=60s. -/
def histW : List (Sample ℚ) := [⟨100, 0⟩, ⟨101, 60000⟩]

/-! ## Helper lemmas -/

section Helpers

variable {α : Type}

theorem foldl_argAux_some {γ δ : Type} [LinearOrder δ] (f : γ → δ) :
    ∀ (t : List γ) (c : γ),
      List.foldl (List.argAux fun b c2 => f b < f c2) (some c) t
        = some (t.foldl (fun c2 p => if f p < f c2 then p else c2) c) := by
  intro t
  induction t with
  | nil => intro c; rfl
  | cons a t ih =>
      intro c
      simp only [List.foldl_cons, List.argAux]
      by_cases h : f a < f c
      · simp only [if_pos h]
        exact ih a
      · simp only [if_neg h]
        exact ih c

/-- The source's closest-sample scan (`findPriceAtTime`) agrees with the
spec-side `closestSample` (a `List.argmin`), followed by the 30-second
acceptance filter. -/
theorem findPriceAtTime_eq (history : List (Sample α)) (target : Int) :
    findPriceAtTime history target
      = (closestSample history target).bind
          (fun s => if |s.timestamp - target| < 30000 then some s.price else none) := by
  cases history with
  | nil => rfl
  | cons h t =>
      unfold findPriceAtTime closestSample List.argmin
      simp only [List.foldl_cons, List.argAux, ite_self]
      rw [foldl_argAux_some]
      rfl

/-- With positive prices, the percentage-change expression inside
`getPriceVelocity` (including its JavaScript falsy guard) agrees with the
spec-side `changeAtLookback`. -/
theorem priceChange_eq_changeAtLookback [LinearOrderedField α]
    (history : List (Sample α)) (now lookbackMs : Int) (currentPrice : α)
    (hpos : ∀ s ∈ history, 0 < s.price) :
    (match findPriceAtTime history (now - lookbackMs) with
      | some p => if p = 0 then 0 else (currentPrice - p) / p * 100
      | none => (0 : α))
      = changeAtLookback history now lookbackMs currentPrice := by
  rw [findPriceAtTime_eq]
  unfold changeAtLookback
  cases hc : closestSample history (now - lookbackMs) with
  | none => rfl
  | some s =>
      have hmem : s ∈ history := List.argmin_mem hc
      have hp : s.price ≠ 0 := ne_of_gt (hpos s hmem)
      by_cases hw : |s.timestamp - (now - lookbackMs)| < 30000
      · simp [hw, hp]
      · simp [hw]

end Helpers

/-! ## Claim theorems -/

/-- C6: for every history with at least 2 samples (prices positive, per the
data model), `getPriceVelocity` succeeds and its hourly rate equals
`change15min·0.5·4 + change5min·0.3·12 + change1min·0.2·60`, where each
horizon's change is the percentage change from the sample whose timestamp is
closest to `now − lookback`, accepted only if within 30 seconds of the
target instant, and a lookback with no accepted sample contributes exactly
0 instead of failing the computation. -/
theorem velocity_blends_lookback_changes (symbol : String) (now : Int)
    (history : List (Sample ℚ)) (hlen : 2 ≤ history.length)
    (hpos : ∀ s ∈ history, 0 < s.price) :
    ∃ v, getPriceVelocity symbol now history = some v ∧
      v.velocityPerHour =
        changeAtLookback history now (15 * 60 * 1000) v.currentPrice * 0.5 * 4
          + changeAtLookback history now (5 * 60 * 1000) v.currentPrice * 0.3 * 12
          + changeAtLookback history now (60 * 1000) v.currentPrice * 0.2 * 60 := by
  have hnl : ¬ history.length < 2 := by omega
  unfold getPriceVelocity
  rw [if_neg hnl]
  refine ⟨_, rfl, ?_⟩
  dsimp only
  rw [priceChange_eq_changeAtLookback history now (60 * 1000) _ hpos,
    priceChange_eq_changeAtLookback history now (5 * 60 * 1000) _ hpos,
    priceChange_eq_changeAtLookback history now (15 * 60 * 1000) _ hpos]

/-- Witness for C6 at the two-sample history `histW` with `now = 60 s`. -/
theorem velocity_blends_lookback_changes_witness :
    2 ≤ histW.length ∧ (∀ s ∈ histW, 0 < s.price) ∧
      (∃ v, getPriceVelocity "SOL/USD" 60000 histW = some v ∧
        v.velocityPerHour =
          changeAtLookback histW 60000 (15 * 60 * 1000) v.currentPrice * 0.5 * 4
            + changeAtLookback histW 60000 (5 * 60 * 1000) v.currentPrice * 0.3 * 12
            + changeAtLookback histW 60000 (60 * 1000) v.currentPrice * 0.2 * 60) :=
  ⟨by with_unfolding_all decide, by with_unfolding_all decide,
    velocity_blends_lookback_changes "SOL/USD" 60000 histW
      (by with_unfolding_all decide) (by with_unfolding_all decide)⟩

/-- C9: the per-symbol history is a bounded FIFO buffer: `addToHistory`
always succeeds, preserves `length ≤ 100`, appends in insertion order while
below capacity, and at capacity evicts exactly the oldest sample, keeping
the order of the rest. -/
theorem history_fifo_bounded (history : List (Sample ℚ)) (s : Sample ℚ)
    (hcap : history.length ≤ 100) :
    (addToHistory history s).length ≤ 100
      ∧ (history.length < 100 → addToHistory history s = history ++ [s])
      ∧ (history.length = 100 → addToHistory history s = history.tail ++ [s]) := by
  unfold addToHistory MAX_HISTORY_POINTS
  dsimp only
  refine ⟨?_, ?_, ?_⟩
  · split
    · simp only [List.length_tail, List.length_append, List.length_cons,
        List.length_nil]
      omega
    · rename_i h
      simp only [gt_iff_lt, not_lt, List.length_append, List.length_cons,
        List.length_nil] at h ⊢
      omega
  · intro hlt
    rw [if_neg (by
      simp only [gt_iff_lt, not_lt, List.length_append, List.length_cons,
        List.length_nil]
      omega)]
  · intro heq
    rw [if_pos (by
      simp only [gt_iff_lt, List.length_append, List.length_cons, List.length_nil]
      omega)]
    cases history with
    | nil => simp at heq
    | cons a t => rfl

/-- Witness for C9 at a full (100-sample) history, exercising eviction. -/
theorem history_fifo_bounded_witness :
    (List.replicate 100 (⟨1, 0⟩ : Sample ℚ)).length ≤ 100
      ∧ ((addToHistory (List.replicate 100 (⟨1, 0⟩ : Sample ℚ)) ⟨2, 7⟩).length ≤ 100
        ∧ ((List.replicate 100 (⟨1, 0⟩ : Sample ℚ)).length < 100 →
            addToHistory (List.replicate 100 (⟨1, 0⟩ : Sample ℚ)) ⟨2, 7⟩
              = List.replicate 100 (⟨1, 0⟩ : Sample ℚ) ++ [⟨2, 7⟩])
        ∧ ((List.replicate 100 (⟨1, 0⟩ : Sample ℚ)).length = 100 →
            addToHistory (List.replicate 100 (⟨1, 0⟩ : Sample ℚ)) ⟨2, 7⟩
              = (List.replicate 100 (⟨1, 0⟩ : Sample ℚ)).tail ++ [⟨2, 7⟩])) :=
  ⟨by simp, history_fifo_bounded (List.replicate 100 ⟨1, 0⟩) ⟨2, 7⟩ (by simp)⟩

/-- C8: `isRebalanceWorthwhile` is true exactly when `|predictedILValue|`
strictly exceeds `gasCostUSD · minMultiplier`; in particular
`(250, 2, 10) ↦ true`, `(15, 2, 10) ↦ false` and, the comparison being
strict, the knife-edge `(20, 2, 10) ↦ false`. -/
theorem rebalance_worthwhile_strict :
    (∀ v g m : ℚ, ILCalculator.isRebalanceWorthwhile v g m = true ↔ g * m < |v|)
      ∧ ILCalculator.isRebalanceWorthwhile (250 : ℚ) 2 10 = true
      ∧ ILCalculator.isRebalanceWorthwhile (15 : ℚ) 2 10 = false
      ∧ ILCalculator.isRebalanceWorthwhile (20 : ℚ) 2 10 = false := by
  refine ⟨fun v g m => ?_, ?_, ?_, ?_⟩
  · unfold ILCalculator.isRebalanceWorthwhile
    exact decide_eq_true_iff
  · with_unfolding_all decide
  · with_unfolding_all decide
  · with_unfolding_all decide

/-- C2: whenever a position is out of range, the recommendation inside the
risk score has `action = rebalance` and `urgency = critical`, for every
(possibly absent) prediction, every outcome of the independent
rebalance-decision prediction, and every volatility — the out-of-range
branch is the first branch of the decision tree and wins over all others. -/
theorem out_of_range_rebalance_critical (fmt : RiskScoring.Formatter)
    (position : RiskScoring.LPPositionR)
    (prediction rdPrediction : Option RiskScoring.ILPredictionR) (volatility : ℚ)
    (h : position.inRange = false) :
    (RiskScoring.calculateRiskScore fmt position prediction rdPrediction
          volatility).recommendation.action
        = RiskScoring.RecAction.rebalance
      ∧ (RiskScoring.calculateRiskScore fmt position prediction rdPrediction
          volatility).recommendation.urgency
        = RiskScoring.Urgency.critical := by
  unfold RiskScoring.calculateRiskScore RiskScoring.generateRecommendation
  rw [h]
  exact ⟨rfl, rfl⟩

/-- Witness for C2 at the out-of-range fixture position. -/
theorem out_of_range_rebalance_critical_witness :
    posOutOfRange.inRange = false
      ∧ ((RiskScoring.calculateRiskScore fmt0 posOutOfRange none none 0).recommendation.action
          = RiskScoring.RecAction.rebalance
        ∧ (RiskScoring.calculateRiskScore fmt0 posOutOfRange none none 0).recommendation.urgency
          = RiskScoring.Urgency.critical) :=
  ⟨rfl, out_of_range_rebalance_critical fmt0 posOutOfRange none none 0 rfl⟩

/-- C3 (amended): `calculateRiskScore` always returns a score; when the IL
prediction is absent the `predictedIL` component is 0 and the predicted-IL
term contributes 0 to the weighted score.  The reasoning is not guaranteed
to note the degraded prediction: the rebalance-decision reason
"Unable to predict IL - insufficient data" is embedded in the reasoning only
when the position is out of range AND the independent `predictIL` call made
inside `shouldRebalance` also returns absent (that second call can succeed
where the first failed, since its fetch appends a fresh sample to the
history); for an in-range position the reasoning is the "Position healthy"
template, which does not mention the prediction at all, whatever the
independent call returned. -/
theorem missing_prediction_degrades (fmt : RiskScoring.Formatter)
    (position : RiskScoring.LPPositionR)
    (rdPrediction : Option RiskScoring.ILPredictionR) (volatility : ℚ) :
    (RiskScoring.calculateRiskScore fmt position none rdPrediction
        volatility).components.predictedIL = 0
      ∧ RiskScoring.riskScoreRaw position none volatility
          = RiskScoring.normalizeIL |position.currentIL| * 0.3
            + (if position.inRange then 0 else 100) * 0.2
            + RiskScoring.normalizeVolatility volatility * 0.1
      ∧ (position.inRange = false → rdPrediction = none →
          (RiskScoring.calculateRiskScore fmt position none rdPrediction
              volatility).recommendation.reasoning
            = "Position OUT OF RANGE. Not earning fees. Unable to predict IL - insufficient data")
      ∧ (position.inRange = true →
          (RiskScoring.calculateRiskScore fmt position none rdPrediction
              volatility).recommendation.reasoning
            = "Position healthy. IL: " ++ fmt.toFixed position.currentIL 2
              ++ "%, Net P&L: $" ++ fmt.toFixed position.netPnL 2) := by
  refine ⟨rfl, ?_, ?_, ?_⟩
  · unfold RiskScoring.riskScoreRaw
    dsimp only
    ring
  · intro h hrd
    subst hrd
    unfold RiskScoring.calculateRiskScore RiskScoring.generateRecommendation
    rw [h]
    rfl
  · intro h
    unfold RiskScoring.calculateRiskScore RiskScoring.generateRecommendation
    rw [h]
    rfl

/-- Witness for C3 at the out-of-range fixture with both predictions absent
(in-range covered by the counterexample's evaluation). -/
theorem missing_prediction_degrades_witness :
    (RiskScoring.calculateRiskScore fmt0 posOutOfRange none none
        0).components.predictedIL = 0
      ∧ RiskScoring.riskScoreRaw posOutOfRange none 0
          = RiskScoring.normalizeIL |posOutOfRange.currentIL| * 0.3
            + (if posOutOfRange.inRange then 0 else 100) * 0.2
            + RiskScoring.normalizeVolatility 0 * 0.1
      ∧ (posOutOfRange.inRange = false →
          (none : Option RiskScoring.ILPredictionR) = none →
          (RiskScoring.calculateRiskScore fmt0 posOutOfRange none none
              0).recommendation.reasoning
            = "Position OUT OF RANGE. Not earning fees. Unable to predict IL - insufficient data")
      ∧ (posOutOfRange.inRange = true →
          (RiskScoring.calculateRiskScore fmt0 posOutOfRange none none
              0).recommendation.reasoning
            = "Position healthy. IL: " ++ fmt0.toFixed posOutOfRange.currentIL 2
              ++ "%, Net P&L: $" ++ fmt0.toFixed posOutOfRange.netPnL 2) :=
  missing_prediction_degrades fmt0 posOutOfRange none 0

/-- Counterexample to C3 as stated: for an in-range position with an absent
prediction the reasoning string is the "Position healthy" template and does
not contain the degraded-prediction note that the code emits elsewhere. -/
theorem missing_prediction_reasoning_counterexample :
    (RiskScoring.calculateRiskScore fmtZ posInRange none none 0).recommendation.reasoning
        = "Position healthy. IL: 0.00%, Net P&L: $0.00"
      ∧ ¬ List.IsInfix "Unable to predict".data
          (RiskScoring.calculateRiskScore fmtZ posInRange none none
              0).recommendation.reasoning.data := by
  with_unfolding_all decide

/-- C4: the weighted score computed by `calculateRiskScore` equals
`0.30·normIL(|currentIL|) + 0.40·normIL(|predictedIL|) + 0.20·outOfRange +
0.10·normVol(volatility)` (an absent prediction contributing 0), and for a
non-negative volatility this sum always lies in `[0, 100]`. -/
theorem risk_score_weighted_sum_bounds (position : RiskScoring.LPPositionR)
    (prediction : Option RiskScoring.ILPredictionR) (volatility : ℚ)
    (hvol : 0 ≤ volatility) :
    RiskScoring.riskScoreRaw position prediction volatility
        = 0.30 * min (|position.currentIL| / 10 * 100) 100
          + 0.40 * (prediction.elim 0
              (fun p => min (|p.predictedILPercentage| / 10 * 100) 100))
          + 0.20 * (if position.inRange then 0 else 100)
          + 0.10 * min (volatility / 5 * 100) 100
      ∧ 0 ≤ RiskScoring.riskScoreRaw position prediction volatility
      ∧ RiskScoring.riskScoreRaw position prediction volatility ≤ 100 := by
  have hc : (0 : ℚ) ≤ min (|position.currentIL| / 10 * 100) 100 :=
    le_min (by positivity) (by norm_num)
  have hc' : min (|position.currentIL| / 10 * 100) 100 ≤ 100 := min_le_right _ _
  have hv : (0 : ℚ) ≤ min (volatility / 5 * 100) 100 :=
    le_min (by positivity) (by norm_num)
  have hv' : min (volatility / 5 * 100) 100 ≤ 100 := min_le_right _ _
  have hr : (0 : ℚ) ≤ (if position.inRange then 0 else 100)
      ∧ (if position.inRange then (0 : ℚ) else 100) ≤ 100 := by
    cases position.inRange <;> norm_num
  unfold RiskScoring.riskScoreRaw RiskScoring.normalizeIL RiskScoring.normalizeVolatility
  cases prediction with
  | none =>
      refine ⟨by dsimp only [Option.elim]; ring, ?_, ?_⟩ <;> dsimp only <;>
        [nlinarith [hr.1, hr.2]; nlinarith [hr.1, hr.2]]
  | some p =>
      have hp : (0 : ℚ) ≤ min (|p.predictedILPercentage| / 10 * 100) 100 :=
        le_min (by positivity) (by norm_num)
      have hp' : min (|p.predictedILPercentage| / 10 * 100) 100 ≤ 100 :=
        min_le_right _ _
      refine ⟨by dsimp only [Option.elim]; ring, ?_, ?_⟩ <;> dsimp only <;>
        [nlinarith [hr.1, hr.2]; nlinarith [hr.1, hr.2]]

/-- Witness for C4 at the out-of-range fixture with volatility 2.4. -/
theorem risk_score_weighted_sum_bounds_witness :
    (0 : ℚ) ≤ 2.4
      ∧ (RiskScoring.riskScoreRaw posOutOfRange none 2.4
          = 0.30 * min (|posOutOfRange.currentIL| / 10 * 100) 100
            + 0.40 * ((none : Option RiskScoring.ILPredictionR).elim 0
                (fun p => min (|p.predictedILPercentage| / 10 * 100) 100))
            + 0.20 * (if posOutOfRange.inRange then 0 else 100)
            + 0.10 * min ((2.4 : ℚ) / 5 * 100) 100
        ∧ 0 ≤ RiskScoring.riskScoreRaw posOutOfRange none 2.4
        ∧ RiskScoring.riskScoreRaw posOutOfRange none 2.4 ≤ 100) :=
  ⟨by with_unfolding_all decide,
    risk_score_weighted_sum_bounds posOutOfRange none 2.4 (by with_unfolding_all decide)⟩

/-- C10: the `riskScore` field is the weighted sum rounded with
`Math.round` while `overallRisk` is bucketed from the unrounded sum, so for
every unrounded sum strictly between 24.5 and 25 the returned score is the
integer 25 while the risk level is still `low`. -/
theorem risk_score_rounding_vs_bucket (fmt : RiskScoring.Formatter)
    (position : RiskScoring.LPPositionR)
    (prediction rdPrediction : Option RiskScoring.ILPredictionR) (volatility : ℚ)
    (h1 : 24.5 < RiskScoring.riskScoreRaw position prediction volatility)
    (h2 : RiskScoring.riskScoreRaw position prediction volatility < 25) :
    (RiskScoring.calculateRiskScore fmt position prediction rdPrediction
          volatility).riskScore
        = jsRound (RiskScoring.riskScoreRaw position prediction volatility)
      ∧ (RiskScoring.calculateRiskScore fmt position prediction rdPrediction
          volatility).overallRisk
        = RiskScoring.getRiskLevel (RiskScoring.riskScoreRaw position prediction volatility)
      ∧ (RiskScoring.calculateRiskScore fmt position prediction rdPrediction
          volatility).riskScore = 25
      ∧ (RiskScoring.calculateRiskScore fmt position prediction rdPrediction
          volatility).overallRisk
        = RiskLevel.low := by
  refine ⟨rfl, rfl, ?_, ?_⟩
  · show jsRound (RiskScoring.riskScoreRaw position prediction volatility) = 25
    unfold jsRound
    rw [Int.floor_eq_iff]
    constructor
    · push_cast
      linarith
    · push_cast
      linarith
  · show RiskScoring.getRiskLevel (RiskScoring.riskScoreRaw position prediction volatility)
        = RiskLevel.low
    unfold RiskScoring.getRiskLevel
    rw [if_neg (by linarith), if_neg (by linarith), if_neg (by linarith)]

/-- Witness for C10: the out-of-range fixture with volatility 2.4 has an
unrounded score of 24.8, reported as integer 25 with level `low`. -/
theorem risk_score_rounding_vs_bucket_witness :
    (24.5 : ℚ) < RiskScoring.riskScoreRaw posOutOfRange none 2.4
      ∧ RiskScoring.riskScoreRaw posOutOfRange none 2.4 < 25
      ∧ ((RiskScoring.calculateRiskScore fmt0 posOutOfRange none none 2.4).riskScore
            = jsRound (RiskScoring.riskScoreRaw posOutOfRange none 2.4)
        ∧ (RiskScoring.calculateRiskScore fmt0 posOutOfRange none none 2.4).overallRisk
            = RiskScoring.getRiskLevel (RiskScoring.riskScoreRaw posOutOfRange none 2.4)
        ∧ (RiskScoring.calculateRiskScore fmt0 posOutOfRange none none 2.4).riskScore = 25
        ∧ (RiskScoring.calculateRiskScore fmt0 posOutOfRange none none 2.4).overallRisk
            = RiskLevel.low) :=
  ⟨by with_unfolding_all decide, by with_unfolding_all decide,
    risk_score_rounding_vs_bucket fmt0 posOutOfRange none none 2.4
      (by with_unfolding_all decide) (by with_unfolding_all decide)⟩

/-- C5 (amended): in the predictor's price forecast the volatility
adjustment is `currentPrice · (volatility/100) · sign(expectedChangePct)`,
where the sign is `+1` exactly when `expectedChangePct > 0` and `−1` when
`expectedChangePct ≤ 0` — in particular `−1` when `expectedChangePct` is
exactly 0; the blended forecast uses this adjustment with the 0.6/0.4
weights, floored at 0. -/
theorem volatility_adjustment_signed
    (currentPrice volatility expectedChange timeframeMinutes : ℚ)
    (velocity : PriceVelocity ℚ) (historySize : Nat) :
    (0 < expectedChange →
        ILPredictor.volatilityAdjustment currentPrice volatility expectedChange
          = currentPrice * (volatility / 100))
      ∧ (expectedChange ≤ 0 →
        ILPredictor.volatilityAdjustment currentPrice volatility expectedChange
          = -(currentPrice * (volatility / 100)))
      ∧ (ILPredictor.predictFuturePrice currentPrice velocity volatility
            timeframeMinutes historySize).1
        = max (currentPrice * (1 + (velocity.velocityPerHour / 60 * timeframeMinutes) / 100)
                * (ILPredictor.VELOCITY_WEIGHT : ℚ)
              + (currentPrice * (1 + (velocity.velocityPerHour / 60 * timeframeMinutes) / 100)
                  + ILPredictor.volatilityAdjustment currentPrice volatility
                      (velocity.velocityPerHour / 60 * timeframeMinutes))
                * (ILPredictor.VOLATILITY_WEIGHT : ℚ)) 0 := by
  refine ⟨?_, ?_, rfl⟩
  · intro h
    unfold ILPredictor.volatilityAdjustment
    rw [if_pos h]
    ring
  · intro h
    unfold ILPredictor.volatilityAdjustment
    rw [if_neg (not_lt.mpr h)]
    ring

/-- Witness for C5 at `expectedChange = 0` (volatility 10, price 100). -/
theorem volatility_adjustment_signed_witness :
    (0 : ℚ) ≤ 0
      ∧ ILPredictor.volatilityAdjustment (100 : ℚ) 10 0 = -((100 : ℚ) * (10 / 100)) :=
  ⟨le_refl 0,
    (volatility_adjustment_signed 100 10 0 30
        ⟨"SOL/USD", 100, 0, 0, 0, 0⟩ 50).2.1 (le_refl 0)⟩

/-- Counterexample to C5 as stated: the claim's sign convention (`+1` when
`expectedChangePct ≥ 0`, hence `+1` at exactly 0) disagrees with the code at
`expectedChangePct = 0`, where the code produces `−10` and the claim's
formula `+10`. -/
theorem volatility_adjustment_sign_counterexample :
    ILPredictor.volatilityAdjustment (100 : ℚ) 10 0 = -10
      ∧ volatilityAdjustmentSpec (100 : ℚ) 10 0 = 10
      ∧ ILPredictor.volatilityAdjustment (100 : ℚ) 10 0
          ≠ volatilityAdjustmentSpec (100 : ℚ) 10 0 := by
  with_unfolding_all decide

/-- C1: `calculateImpermanentLoss` returns
`ilPercentage = (2·√r/(1+r) − 1)·100` with `r = currentPrice/initialPrice`;
for positive prices this is never positive, is exactly 0 (with `ilValue`
exactly 0) when `currentPrice = initialPrice`, and is strictly negative
otherwise. -/
theorem il_formula_nonpositive (initialPrice currentPrice initialValue : ℝ)
    (hip : 0 < initialPrice) (hcp : 0 < currentPrice) :
    (ILCalculator.calculateImpermanentLoss initialPrice currentPrice initialValue).ilPercentage
        = (2 * Real.sqrt (currentPrice / initialPrice)
            / (1 + currentPrice / initialPrice) - 1) * 100
      ∧ (ILCalculator.calculateImpermanentLoss initialPrice currentPrice initialValue).ilPercentage
        ≤ 0
      ∧ (currentPrice = initialPrice →
          (ILCalculator.calculateImpermanentLoss initialPrice currentPrice
              initialValue).ilPercentage = 0
            ∧ (ILCalculator.calculateImpermanentLoss initialPrice currentPrice
              initialValue).ilValue = 0)
      ∧ (currentPrice ≠ initialPrice →
          (ILCalculator.calculateImpermanentLoss initialPrice currentPrice
              initialValue).ilPercentage < 0) := by
  have hr : 0 < currentPrice / initialPrice := div_pos hcp hip
  set r := currentPrice / initialPrice with hrdef
  have hs : Real.sqrt r ^ 2 = r := Real.sq_sqrt hr.le
  have hsn : 0 ≤ Real.sqrt r := Real.sqrt_nonneg r
  have h1r : (0 : ℝ) < 1 + r := by linarith
  have hkey : 2 * Real.sqrt r ≤ 1 + r := by nlinarith [sq_nonneg (Real.sqrt r - 1)]
  refine ⟨rfl, ?_, ?_, ?_⟩
  · show (2 * Real.sqrt r / (1 + r) - 1) * 100 ≤ 0
    have : 2 * Real.sqrt r / (1 + r) ≤ 1 := (div_le_one h1r).mpr hkey
    linarith
  · intro heq
    have hr1 : r = 1 := by rw [hrdef, heq, div_self hip.ne']
    have : Real.sqrt r = 1 := by rw [hr1, Real.sqrt_one]
    constructor
    · show (2 * Real.sqrt r / (1 + r) - 1) * 100 = 0
      rw [this, hr1]
      norm_num
    · show initialValue * (2 * Real.sqrt r / (1 + r)) - initialValue = 0
      rw [this, hr1]
      ring
  · intro hne
    have hr1 : r ≠ 1 := by
      intro h
      exact hne ((div_eq_one_iff_eq hip.ne').mp (hrdef ▸ h))
    have hsne : Real.sqrt r ≠ 1 := fun h => hr1 (Real.sqrt_eq_one.mp h)
    have hpos : 0 < (Real.sqrt r - 1) ^ 2 :=
      pow_two_pos_of_ne_zero (sub_ne_zero.mpr hsne)
    have hkey' : 2 * Real.sqrt r < 1 + r := by nlinarith
    show (2 * Real.sqrt r / (1 + r) - 1) * 100 < 0
    have : 2 * Real.sqrt r / (1 + r) < 1 := (div_lt_one h1r).mpr hkey'
    linarith

/-- Witness for C1 at `(initialPrice, currentPrice, initialValue) =
(1, 4, 10)`. -/
theorem il_formula_nonpositive_witness :
    (0 : ℝ) < 1 ∧ (0 : ℝ) < 4
      ∧ ((ILCalculator.calculateImpermanentLoss 1 4 10).ilPercentage
            = (2 * Real.sqrt ((4 : ℝ) / 1) / (1 + (4 : ℝ) / 1) - 1) * 100
        ∧ (ILCalculator.calculateImpermanentLoss 1 4 10).ilPercentage ≤ 0
        ∧ ((4 : ℝ) = 1 →
            (ILCalculator.calculateImpermanentLoss 1 4 10).ilPercentage = 0
              ∧ (ILCalculator.calculateImpermanentLoss 1 4 10).ilValue = 0)
        ∧ ((4 : ℝ) ≠ 1 →
            (ILCalculator.calculateImpermanentLoss 1 4 10).ilPercentage < 0)) :=
  ⟨zero_lt_one, zero_lt_four,
    il_formula_nonpositive 1 4 10 zero_lt_one zero_lt_four⟩

/-- C7: `predictIL` returns an absent result exactly when the price fetch
is unavailable or the velocity is absent, and the velocity is absent exactly
when fewer than 2 samples exist in the history it is computed from (the
history after the successful fetch stored its sample); in every other case
a populated prediction is returned. -/
theorem predict_il_absent_iff (fmt : ℝ → Nat → String) (symbol : String)
    (fetch : Option ℝ) (history : List (Sample ℝ)) (now : Int)
    (config : ILPredictor.PredictionConfig) :
    (ILPredictor.predictIL fmt symbol fetch history now config = none ↔
        fetch = none ∨ ∃ p, fetch = some p
          ∧ getPriceVelocity symbol now
              (addToHistory history ⟨p, now⟩) = none)
      ∧ ∀ h2 : List (Sample ℝ),
          (getPriceVelocity symbol now h2 = none ↔ h2.length < 2) := by
  have hvel : ∀ h2 : List (Sample ℝ),
      (getPriceVelocity symbol now h2 = none ↔ h2.length < 2) := by
    intro h2
    unfold getPriceVelocity
    by_cases hl : h2.length < 2
    · simp [hl]
    · simp [hl]
  refine ⟨?_, hvel⟩
  cases fetch with
  | none => simp [ILPredictor.predictIL]
  | some p =>
      unfold ILPredictor.predictIL
      cases hv : getPriceVelocity symbol now (addToHistory history ⟨p, now⟩) with
      | none => simp [hv]
      | some v => simp [hv]

end ILGuard
